import Mathlib

/-!
# Verification of `kapture_run_colmap_gv.py`

A shallow embedding of `src/tools/kapture_run_colmap_gv.py`
(`run_colmap_gv_from_loaded_data`), the orchestrator that exports a
match-set difference to a COLMAP database, runs COLMAP's
`matches_importer` for geometric verification, imports the verified
matches back, and deletes the intermediate database.

The orchestrator's effects (file creation/removal, database handle
open/close, subprocess launch) are modelled as an explicit event trace
plus a one-file filesystem state (only `<output_dir>/colmap.db` matters
to this script).  External collaborators that the script calls
(`safe_remove_file`, `rigs_remove_inplace`, `run_matches_importer_from_kapture`,
the COLMAP database reads) live outside the source tree; they are
modelled from the specification's description of their contracts, each
marked in its doc comment.
-/

namespace KaptureGv

/-- Poses are abstract here: the script never inspects a pose, it only
moves them around.  An integer stands in for a rigid transform. -/
abbrev Pose := Int

/-- Modelled from the spec: pose composition used by rig flattening
("replacing multi-camera-rig-relative poses with absolute per-camera
poses").  The actual group operation is irrelevant to the claims. -/
def composePose (rel abs_ : Pose) : Pose := rel + abs_

/-- An image pair key, as used by `kapture.Matches` (a set of pairs). -/
abbrev ImagePair := String × String

/-- A trajectory entry: (timestamp, device id, pose).  The device id is
either a sensor (camera) id or a rig id. -/
abbrev TrajEntry := Nat × String × Pose

/-- A rig: rig id together with its member cameras and their relative poses. -/
abbrev Rig := String × List (String × Pose)

/-- The in-memory dataset snapshot (`kapture.Kapture`).  Each collection
is optional (`None` in Python); collections are given by their keys,
which is all the orchestrator looks at. -/
structure Kapture where
  sensors : Option (List String) := none
  trajectories : Option (List TrajEntry) := none
  rigs : Option (List Rig) := none
  records_camera : Option (List (Nat × String × String)) := none
  keypoints : Option (List String) := none
  «matches» : Option (List ImagePair) := none
  deriving DecidableEq, Repr

/-- Python truthiness of an optional collection: `None` and the empty
collection are falsy. -/
def truthy {α : Type} (o : Option (List α)) : Bool :=
  match o with
  | none => false
  | some l => !l.isEmpty

/-- The guard of line 52–53:
`kapture_none_matches.records_camera and ... .sensors and ... .keypoints and ... .matches`. -/
def mandatoryPresent (k : Kapture) : Bool :=
  truthy k.records_camera && truthy k.sensors && truthy k.keypoints && truthy k.«matches»

/-- Is `dev` the id of one of the rigs? -/
def isRigId (rigs : List Rig) (dev : String) : Bool :=
  rigs.any (fun r => r.1 == dev)

/-- Modelled from the spec: `rigs_remove_inplace` from the external
kapture library ("replacing multi-camera-rig-relative poses with
absolute per-camera poses"; "flattens them into the trajectories").
Each trajectory entry whose device is a rig id is replaced by one entry
per member camera with the composed pose; other entries are kept. -/
def rigs_remove_inplace (traj : List TrajEntry) (rigs : List Rig) : List TrajEntry :=
  traj.foldr
    (fun e acc =>
      match rigs.find? (fun r => r.1 == e.2.1) with
      | some r => (r.2.map (fun c => (e.1, c.1, composePose c.2 e.2.2))) ++ acc
      | none => e :: acc)
    []

/-- Lines 57–60: if both rigs and trajectories are present, flatten the
rigs into the trajectories (in place on the loaded snapshot). -/
def flattenRigs (k : Kapture) : Kapture :=
  match k.rigs, k.trajectories with
  | some rigs, some traj => { k with trajectories := some (rigs_remove_inplace traj rigs) }
  | _, _ => k

/-- Lines 69–73: the matches of the verified snapshot, or the empty set
when that snapshot has no match collection (`kapture.Matches()`). -/
def colmapMatchesOf (kcm : Kapture) : List ImagePair :=
  match kcm.«matches» with
  | some m => m
  | none => []

/-- Line 73: `kapture_none_matches.matches.difference(colmap_matches)` —
the set difference of the unverified matches and the verified ones. -/
def computeMatchesToVerify (knm kcm : Kapture) : List ImagePair :=
  (knm.«matches».getD []).filter (fun p => !decide (p ∈ colmapMatchesOf kcm))

/-- Lines 74–78: the package handed to `kapture_to_colmap`: the
unverified snapshot's sensors, trajectories, image records and
keypoints, with the match difference as its match set (and nothing
else; in particular no rigs). -/
def exportPackage (knm kcm : Kapture) : Kapture :=
  { sensors := knm.sensors
    trajectories := knm.trajectories
    records_camera := knm.records_camera
    keypoints := knm.keypoints
    «matches» := some (computeMatchesToVerify knm kcm) }

/-- The observable effects of one run, in order. -/
inductive Event
  | stepRun (name : String)
  | askConfirmation (path : String)
  | removeFile (path : String)
  | connectDb (path : String)
  | exportToColmap (data : Kapture)
  | closeDb (path : String)
  | runSubprocess (binary : String) (dbPath : String)
  | readImagesFromDb (path : String)
  | readMatchesFromDb (path : String)
  deriving DecidableEq, Repr

/-- Errors the run can end with. -/
inductive GvError
  /-- Line 54: `ValueError('records_camera, sensors, keypoints, matches are mandatory')`. -/
  | valueError
  /-- Spec-modelled: `safe_remove_file` without force, user declines ("after confirmation/failure"). -/
  | removalDeclined
  /-- Spec-modelled: "Subprocess non-zero exit → error propagates, run aborts". -/
  | subprocessFailed
  /-- `os.remove` on a missing file raises `FileNotFoundError`. -/
  | fileNotFound
  deriving DecidableEq, Repr

/-- The filesystem as far as this script is concerned: the single file
`<output_dir>/colmap.db`.  `dbWrites` counts writes to it, so that
"unchanged" is expressible. -/
structure FsState where
  dbExists : Bool
  dbWrites : Nat
  deriving DecidableEq, Repr

/-- Mutable run state: filesystem, event trace so far, and the kapture
data built by the import step. -/
structure RunState where
  fs : FsState
  trace : List Event
  out : Kapture
  deriving DecidableEq, Repr

/-- Append one event to the trace. -/
def emit (s : RunState) (e : Event) : RunState :=
  { s with trace := s.trace ++ [e] }

/-- Outcome of a (partial) run: success or an error, each with the
state reached. -/
inductive Outcome
  | ok (s : RunState)
  | err (s : RunState) (e : GvError)
  deriving DecidableEq, Repr

/-- The state carried by an outcome. -/
def Outcome.state : Outcome → RunState
  | .ok s => s
  | .err s _ => s

/-- The event trace of an outcome. -/
def Outcome.trace (o : Outcome) : List Event := o.state.trace

/-- Sequencing that short-circuits on error (Python exception flow). -/
def Outcome.andThen (o : Outcome) (f : RunState → Outcome) : Outcome :=
  match o with
  | .ok s => f s
  | .err s e => .err s e

/-- Static configuration: the two loaded snapshots, the directory
paths, the binary, the skip list and the force flag (the parameters of
`run_colmap_gv_from_loaded_data`). -/
structure Cfg where
  knm : Kapture
  kcm : Kapture
  knm_dirpath : String
  kcm_dirpath : String
  colmap_binary : String
  skip_list : List String
  force : Bool

/-- Line 63: `os.path.join(kapture_colmap_matches_dirpath, 'colmap.db')`. -/
def colmapDbPath (cfg : Cfg) : String := cfg.kcm_dirpath ++ "/colmap.db"

/-- The environment: everything outside the orchestrator's control —
whether the database file pre-exists, the user's answer to the removal
prompt, the subprocess exit status, and what the database reads return. -/
structure Env where
  dbExists0 : Bool
  userConfirms : Bool
  subprocessOk : Bool
  importedRecords : List (Nat × String × String)
  importedMatches : List ImagePair

/-- Modelled from the spec: `safe_remove_file` from the external kapture
library — "removes a pre-existing external database file at the fixed
path, either silently (if forced) or after confirmation/failure if
not".  On a missing file it is a no-op. -/
def safe_remove_file (path : String) (force userConfirms : Bool) (s : RunState) : Outcome :=
  if s.fs.dbExists then
    if force then
      .ok (emit { s with fs := { s.fs with dbExists := false } } (.removeFile path))
    else
      let s' := emit s (.askConfirmation path)
      if userConfirms then
        .ok (emit { s' with fs := { s'.fs with dbExists := false } } (.removeFile path))
      else
        .err s' .removalDeclined
  else .ok s

/-- Lines 64–65: step `delete_existing`. -/
def deleteExistingStep (cfg : Cfg) (env : Env) (s : RunState) : Outcome :=
  if "delete_existing" ∈ cfg.skip_list then .ok s
  else safe_remove_file (colmapDbPath cfg) cfg.force env.userConfirms
        (emit s (.stepRun "delete_existing"))

/-- Lines 67–95: step `matches_importer`.  Computes the match
difference, connects to the database (creating the file), exports the
package, closes the handle, then runs the external binary.
The subprocess call is modelled from the spec for
`run_matches_importer_from_kapture` (repository code outside the given
sources): "launches the external binary in a blocking subprocess call";
non-zero exit aborts the run. -/
def matchesImporterStep (cfg : Cfg) (env : Env) (k : Kapture) (s : RunState) : Outcome :=
  if "matches_importer" ∈ cfg.skip_list then .ok s
  else
    let path := colmapDbPath cfg
    let pkg := exportPackage k cfg.kcm
    let s := emit s (.stepRun "matches_importer")
    let s := emit { s with fs := { s.fs with dbExists := true } } (.connectDb path)
    let s := emit { s with fs := { s.fs with dbWrites := s.fs.dbWrites + 1 } }
              (.exportToColmap pkg)
    let s := emit s (.closeDb path)
    let s := emit { s with fs := { s.fs with dbWrites := s.fs.dbWrites + 1 } }
              (.runSubprocess cfg.colmap_binary path)
    if env.subprocessOk then .ok s else .err s .subprocessFailed

/-- Lines 97–106: step `import`.  Reopens the database, reads images
and verified matches out of it (results supplied by the environment),
closes the handle. -/
def importStep (cfg : Cfg) (env : Env) (s : RunState) : Outcome :=
  if "import" ∈ cfg.skip_list then .ok s
  else
    let path := colmapDbPath cfg
    let s := emit s (.stepRun "import")
    let s := emit { s with fs := { s.fs with dbExists := true } } (.connectDb path)
    let s := emit s (.readImagesFromDb path)
    let s := emit s (.readMatchesFromDb path)
    let s := emit s (.closeDb path)
    .ok { s with out := { records_camera := some env.importedRecords
                          «matches» := some env.importedMatches } }

/-- Lines 108–110: step `delete_db`.  `os.remove` raises
`FileNotFoundError` when the file does not exist. -/
def deleteDbStep (cfg : Cfg) (s : RunState) : Outcome :=
  if "delete_db" ∈ cfg.skip_list then .ok s
  else
    let s := emit s (.stepRun "delete_db")
    if s.fs.dbExists then
      .ok (emit { s with fs := { s.fs with dbExists := false } } (.removeFile (colmapDbPath cfg)))
    else
      .err s .fileNotFound

/-- The initial run state for a given environment. -/
def initState (env : Env) : RunState :=
  { fs := { dbExists := env.dbExists0, dbWrites := 0 }, trace := [], out := {} }

/-- The run truncated after the `import` step (no `delete_db`). -/
def runThroughImport (cfg : Cfg) (env : Env) : Outcome :=
  if !mandatoryPresent cfg.knm then .err (initState env) .valueError
  else
    ((deleteExistingStep cfg env (initState env)).andThen
      (matchesImporterStep cfg env (flattenRigs cfg.knm))).andThen
      (importStep cfg env)

/-- Lines 44–110: `run_colmap_gv_from_loaded_data`.  Validates the
mandatory collections, flattens rigs into the trajectories, then runs
the four skippable steps in order. -/
def run_colmap_gv_from_loaded_data (cfg : Cfg) (env : Env) : Outcome :=
  (runThroughImport cfg env).andThen (deleteDbStep cfg)

/-- Marker events identify which steps ran. -/
def isStepMarker : Event → Bool
  | .stepRun _ => true
  | _ => false

/-- The four step names, in the order the orchestrator attempts them. -/
def stepNames : List String :=
  ["delete_existing", "matches_importer", "import", "delete_db"]

/-- The step markers a run with the given skip list should produce. -/
def expectedMarkers (skip : List String) : List Event :=
  (stepNames.filter (fun n => !decide (n ∈ skip))).map Event.stepRun

/-- Number of open database handles after processing a trace, starting
from `n` open handles. -/
def openAfter (n : Nat) : List Event → Nat
  | [] => n
  | .connectDb _ :: rest => openAfter (n + 1) rest
  | .closeDb _ :: rest => openAfter (n - 1) rest
  | _ :: rest => openAfter n rest

/-- Starting from `n` open handles, is every subprocess launch in the
trace made with zero database handles open? -/
def subprocClosedAux (n : Nat) : List Event → Bool
  | [] => true
  | .connectDb _ :: rest => subprocClosedAux (n + 1) rest
  | .closeDb _ :: rest => subprocClosedAux (n - 1) rest
  | .runSubprocess _ _ :: rest => decide (n = 0) && subprocClosedAux n rest
  | _ :: rest => subprocClosedAux n rest

/-! ## Basic lemmas -/

theorem truthy_eq_false_iff {α : Type} (o : Option (List α)) :
    truthy o = false ↔ o = none ∨ o = some [] := by
  cases o with
  | none => simp [truthy]
  | some l => cases l <;> simp [truthy]

theorem flattenRigs_matches (k : Kapture) : (flattenRigs k).«matches» = k.«matches» := by
  unfold flattenRigs; split <;> rfl

theorem flattenRigs_sensors (k : Kapture) : (flattenRigs k).sensors = k.sensors := by
  unfold flattenRigs; split <;> rfl

theorem flattenRigs_records (k : Kapture) : (flattenRigs k).records_camera = k.records_camera := by
  unfold flattenRigs; split <;> rfl

theorem flattenRigs_keypoints (k : Kapture) : (flattenRigs k).keypoints = k.keypoints := by
  unfold flattenRigs; split <;> rfl

theorem flattenRigs_trajectories {k : Kapture} {rigs : List Rig} {traj : List TrajEntry}
    (h1 : k.rigs = some rigs) (h2 : k.trajectories = some traj) :
    (flattenRigs k).trajectories = some (rigs_remove_inplace traj rigs) := by
  unfold flattenRigs; rw [h1, h2]

theorem computeMatchesToVerify_mem (knm kcm : Kapture) (p : ImagePair) :
    p ∈ computeMatchesToVerify knm kcm ↔
      p ∈ knm.«matches».getD [] ∧ p ∉ colmapMatchesOf kcm := by
  simp [computeMatchesToVerify, List.mem_filter]

theorem rigs_remove_inplace_cons (a : TrajEntry) (traj : List TrajEntry) (rigs : List Rig) :
    rigs_remove_inplace (a :: traj) rigs =
      (match rigs.find? (fun r => r.1 == a.2.1) with
       | some r => (r.2.map (fun c => (a.1, c.1, composePose c.2 a.2.2))) ++
                    rigs_remove_inplace traj rigs
       | none => a :: rigs_remove_inplace traj rigs) := rfl

/-- After flattening, no trajectory entry refers to a rig, provided no
rig lists another rig's id among its member cameras. -/
theorem rigs_remove_inplace_no_rig {rigs : List Rig}
    (hdisj : ∀ r ∈ rigs, ∀ c ∈ r.2, isRigId rigs c.1 = false) :
    ∀ (traj : List TrajEntry), ∀ e ∈ rigs_remove_inplace traj rigs, isRigId rigs e.2.1 = false := by
  intro traj
  induction traj with
  | nil => simp [rigs_remove_inplace]
  | cons a traj ih =>
    intro e he
    rw [rigs_remove_inplace_cons] at he
    cases hfind : rigs.find? (fun r => r.1 == a.2.1) with
    | some r =>
      rw [hfind] at he
      rcases List.mem_append.mp he with hmap | hrest
      · obtain ⟨c, hc, hce⟩ := List.mem_map.mp hmap
        have hr : r ∈ rigs := List.mem_of_find?_eq_some hfind
        have := hdisj r hr c hc
        rw [← hce] at *
        simpa using this
      · exact ih e hrest
    | none =>
      rw [hfind] at he
      rcases List.mem_cons.mp he with rfl | hrest
      · have hall := List.find?_eq_none.mp hfind
        simp only [isRigId, List.any_eq_true, not_exists]
        simp only [Bool.not_eq_true] at hall ⊢
        rw [List.any_eq_false]
        intro r hr
        simpa using hall r hr
      · exact ih e hrest

/-! ## Sequencing lemmas -/

theorem andThen_eq_ok {o : Outcome} {f : RunState → Outcome} {s : RunState}
    (h : o.andThen f = .ok s) : ∃ s0, o = .ok s0 ∧ f s0 = .ok s := by
  cases o with
  | ok s0 => exact ⟨s0, rfl, h⟩
  | err s0 e => simp [Outcome.andThen] at h

theorem andThen_eq_err {o : Outcome} {f : RunState → Outcome} {s : RunState} {e : GvError}
    (h : o.andThen f = .err s e) :
    o = .err s e ∨ ∃ s0, o = .ok s0 ∧ f s0 = .err s e := by
  cases o with
  | ok s0 => exact Or.inr ⟨s0, rfl, h⟩
  | err s0 e0 =>
    simp only [Outcome.andThen] at h
    exact Or.inl h

theorem andThen_state (o : Outcome) (f : RunState → Outcome) :
    (o.andThen f).state = match o with
      | .ok s => (f s).state
      | .err s _ => s := by
  cases o <;> rfl

/-! ## Per-step lemmas -/

theorem deleteExistingStep_err {cfg : Cfg} {env : Env} {s s' : RunState} {e : GvError}
    (h : deleteExistingStep cfg env s = .err s' e) : e = .removalDeclined := by
  unfold deleteExistingStep safe_remove_file at h
  split at h
  · exact absurd h (by simp)
  · split at h
    · split at h
      · exact absurd h (by simp)
      · dsimp only at h
        split at h
        · exact absurd h (by simp)
        · injection h with h1 h2; exact h2.symm
    · exact absurd h (by simp)

theorem matchesImporterStep_err {cfg : Cfg} {env : Env} {k : Kapture} {s s' : RunState}
    {e : GvError} (h : matchesImporterStep cfg env k s = .err s' e) : e = .subprocessFailed := by
  unfold matchesImporterStep at h
  split at h
  · exact absurd h (by simp)
  · split at h <;> simp_all

theorem importStep_err {cfg : Cfg} {env : Env} {s s' : RunState} {e : GvError}
    (h : importStep cfg env s = .err s' e) : False := by
  unfold importStep at h
  split at h <;> simp_all

theorem deleteDbStep_err {cfg : Cfg} {s s' : RunState} {e : GvError}
    (h : deleteDbStep cfg s = .err s' e) : e = .fileNotFound := by
  unfold deleteDbStep at h
  split at h
  · exact absurd h (by simp)
  · dsimp only at h
    split at h
    · exact absurd h (by simp)
    · injection h with h1 h2; exact h2.symm

/-- All events step `delete_existing` can emit. -/
def deleteExistingSup (cfg : Cfg) : List Event :=
  [.stepRun "delete_existing", .askConfirmation (colmapDbPath cfg),
   .removeFile (colmapDbPath cfg)]

/-- All events step `matches_importer` can emit, given the flattened snapshot `k`. -/
def matchesImporterSup (cfg : Cfg) (k : Kapture) : List Event :=
  [.stepRun "matches_importer", .connectDb (colmapDbPath cfg),
   .exportToColmap (exportPackage k cfg.kcm), .closeDb (colmapDbPath cfg),
   .runSubprocess cfg.colmap_binary (colmapDbPath cfg)]

/-- All events step `import` can emit. -/
def importSup (cfg : Cfg) : List Event :=
  [.stepRun "import", .connectDb (colmapDbPath cfg), .readImagesFromDb (colmapDbPath cfg),
   .readMatchesFromDb (colmapDbPath cfg), .closeDb (colmapDbPath cfg)]

/-- All events step `delete_db` can emit. -/
def deleteDbSup (cfg : Cfg) : List Event :=
  [.stepRun "delete_db", .removeFile (colmapDbPath cfg)]

/-- Characterization of the events appended by step `delete_existing`,
whether it succeeds or errors. -/
theorem deleteExistingStep_state (cfg : Cfg) (env : Env) (s : RunState) :
    ∃ t, (deleteExistingStep cfg env s).state.trace = s.trace ++ t ∧
      (∀ e ∈ t, e ∈ deleteExistingSup cfg) ∧
      t.filter isStepMarker =
        (if "delete_existing" ∈ cfg.skip_list then [] else [.stepRun "delete_existing"]) ∧
      subprocClosedAux 0 t = true ∧ openAfter 0 t = 0 ∧
      (cfg.force = true → ∀ p, Event.askConfirmation p ∉ t) := by
  unfold deleteExistingStep safe_remove_file
  by_cases hskip : "delete_existing" ∈ cfg.skip_list
  · exact ⟨[], by simp [hskip, Outcome.state], by simp, by simp [hskip], rfl, rfl, by simp⟩
  · rw [if_neg hskip]
    dsimp only
    split
    · split
      next hforce =>
        exact ⟨[.stepRun "delete_existing", .removeFile (colmapDbPath cfg)],
          by simp [Outcome.state, emit],
          by intro e he; simp [deleteExistingSup] at he ⊢; tauto,
          by rfl, rfl, rfl, by intro _ p; simp⟩
      next hforce =>
        split
        · exact ⟨[.stepRun "delete_existing", .askConfirmation (colmapDbPath cfg),
              .removeFile (colmapDbPath cfg)],
            by simp [Outcome.state, emit],
            by intro e he; simp [deleteExistingSup] at he ⊢; tauto,
            by rfl, rfl, rfl, fun hf => absurd hf hforce⟩
        · exact ⟨[.stepRun "delete_existing", .askConfirmation (colmapDbPath cfg)],
            by simp [Outcome.state, emit],
            by intro e he; simp [deleteExistingSup] at he ⊢; tauto,
            by rfl, rfl, rfl, fun hf => absurd hf hforce⟩
    · exact ⟨[.stepRun "delete_existing"],
        by simp [Outcome.state, emit],
        by intro e he; simp [deleteExistingSup] at he ⊢; tauto,
        by rfl, rfl, rfl, by intro _ p; simp⟩

/-- Characterization of the events appended by step `matches_importer`,
whether it succeeds or errors. -/
theorem matchesImporterStep_state (cfg : Cfg) (env : Env) (k : Kapture) (s : RunState) :
    ∃ t, (matchesImporterStep cfg env k s).state.trace = s.trace ++ t ∧
      (∀ e ∈ t, e ∈ matchesImporterSup cfg k) ∧
      t.filter isStepMarker =
        (if "matches_importer" ∈ cfg.skip_list then [] else [.stepRun "matches_importer"]) ∧
      subprocClosedAux 0 t = true ∧ openAfter 0 t = 0 := by
  unfold matchesImporterStep
  by_cases hskip : "matches_importer" ∈ cfg.skip_list
  · exact ⟨[], by simp [hskip, Outcome.state], by simp, by simp [hskip], rfl, rfl⟩
  · rw [if_neg hskip]
    dsimp only
    split
    · exact ⟨[.stepRun "matches_importer", .connectDb (colmapDbPath cfg),
          .exportToColmap (exportPackage k cfg.kcm), .closeDb (colmapDbPath cfg),
          .runSubprocess cfg.colmap_binary (colmapDbPath cfg)],
        by simp [Outcome.state, emit],
        by intro e he; simp [matchesImporterSup] at he ⊢; tauto,
        by rfl, rfl, rfl⟩
    · exact ⟨[.stepRun "matches_importer", .connectDb (colmapDbPath cfg),
          .exportToColmap (exportPackage k cfg.kcm), .closeDb (colmapDbPath cfg),
          .runSubprocess cfg.colmap_binary (colmapDbPath cfg)],
        by simp [Outcome.state, emit],
        by intro e he; simp [matchesImporterSup] at he ⊢; tauto,
        by rfl, rfl, rfl⟩

/-- Characterization of the events appended by step `import`. -/
theorem importStep_state (cfg : Cfg) (env : Env) (s : RunState) :
    ∃ t, (importStep cfg env s).state.trace = s.trace ++ t ∧
      (∀ e ∈ t, e ∈ importSup cfg) ∧
      t.filter isStepMarker =
        (if "import" ∈ cfg.skip_list then [] else [.stepRun "import"]) ∧
      subprocClosedAux 0 t = true ∧ openAfter 0 t = 0 := by
  unfold importStep
  by_cases hskip : "import" ∈ cfg.skip_list
  · exact ⟨[], by simp [hskip, Outcome.state], by simp, by simp [hskip], rfl, rfl⟩
  · rw [if_neg hskip]
    exact ⟨[.stepRun "import", .connectDb (colmapDbPath cfg), .readImagesFromDb (colmapDbPath cfg),
        .readMatchesFromDb (colmapDbPath cfg), .closeDb (colmapDbPath cfg)],
      by simp [Outcome.state, emit],
      by intro e he; simp [importSup] at he ⊢; tauto,
      by rw [if_neg hskip]; rfl, rfl, rfl⟩

/-- Characterization of the events appended by step `delete_db`,
whether it succeeds or errors. -/
theorem deleteDbStep_state (cfg : Cfg) (s : RunState) :
    ∃ t, (deleteDbStep cfg s).state.trace = s.trace ++ t ∧
      (∀ e ∈ t, e ∈ deleteDbSup cfg) ∧
      t.filter isStepMarker =
        (if "delete_db" ∈ cfg.skip_list then [] else [.stepRun "delete_db"]) ∧
      subprocClosedAux 0 t = true ∧ openAfter 0 t = 0 := by
  unfold deleteDbStep
  by_cases hskip : "delete_db" ∈ cfg.skip_list
  · exact ⟨[], by simp [hskip, Outcome.state], by simp, by simp [hskip], rfl, rfl⟩
  · rw [if_neg hskip]
    dsimp only
    split
    · exact ⟨[.stepRun "delete_db", .removeFile (colmapDbPath cfg)],
        by simp [Outcome.state, emit],
        by intro e he; simp [deleteDbSup] at he ⊢; tauto,
        by rfl, rfl, rfl⟩
    · exact ⟨[.stepRun "delete_db"],
        by simp [Outcome.state, emit],
        by intro e he; simp [deleteDbSup] at he ⊢; tauto,
        by rfl, rfl, rfl⟩

/-! ## Trace fold lemmas -/

theorem openAfter_append (t1 t2 : List Event) :
    ∀ n, openAfter n (t1 ++ t2) = openAfter (openAfter n t1) t2 := by
  induction t1 with
  | nil => intro n; rfl
  | cons e t1 ih => intro n; cases e <;> simp [openAfter, ih]

theorem subprocClosedAux_append (t1 t2 : List Event) :
    ∀ n, subprocClosedAux n (t1 ++ t2) =
      (subprocClosedAux n t1 && subprocClosedAux (openAfter n t1) t2) := by
  induction t1 with
  | nil => intro n; simp [subprocClosedAux, openAfter]
  | cons e t1 ih => intro n; cases e <;> simp [subprocClosedAux, openAfter, ih, Bool.and_assoc]

theorem subprocClosedAux_decomp (t1 : List Event) :
    ∀ (n : Nat) (b p : String) (t2 : List Event),
      subprocClosedAux n (t1 ++ .runSubprocess b p :: t2) = true → openAfter n t1 = 0 := by
  induction t1 with
  | nil =>
    intro n b p t2 h
    simp only [List.nil_append, subprocClosedAux, Bool.and_eq_true, decide_eq_true_eq] at h
    simpa [openAfter] using h.1
  | cons e t1 ih =>
    intro n b p t2 h
    cases e <;>
      simp only [List.cons_append, subprocClosedAux, openAfter, Bool.and_eq_true,
        decide_eq_true_eq] at h ⊢ <;>
      first
        | exact ih _ b p t2 h
        | exact ih _ b p t2 h.2

/-- Database-handle invariant: every subprocess launch in the trace so
far happened with all database handles closed, and no handle is open
at the end of the trace. -/
def handlesInv (s : RunState) : Prop :=
  subprocClosedAux 0 s.trace = true ∧ openAfter 0 s.trace = 0

theorem handlesInv_extend {s s' : RunState} {t : List Event}
    (h : handlesInv s) (htr : s'.trace = s.trace ++ t)
    (ht1 : subprocClosedAux 0 t = true) (ht2 : openAfter 0 t = 0) : handlesInv s' := by
  obtain ⟨h1, h2⟩ := h
  constructor
  · rw [htr, subprocClosedAux_append, h1, h2, ht1]
    rfl
  · rw [htr, openAfter_append, h2, ht2]

/-- Master decomposition of a run's trace into the four steps'
contributions, with the events each step can contribute and the
database-handle invariant. -/
theorem run_decomp (cfg : Cfg) (env : Env) :
    ∃ t1 t2 t3 t4,
      (run_colmap_gv_from_loaded_data cfg env).state.trace = t1 ++ (t2 ++ (t3 ++ t4)) ∧
      (∀ e ∈ t1, e ∈ deleteExistingSup cfg) ∧
      (∀ e ∈ t2, e ∈ matchesImporterSup cfg (flattenRigs cfg.knm)) ∧
      (∀ e ∈ t3, e ∈ importSup cfg) ∧
      (∀ e ∈ t4, e ∈ deleteDbSup cfg) ∧
      handlesInv (run_colmap_gv_from_loaded_data cfg env).state ∧
      (cfg.force = true → ∀ p, Event.askConfirmation p ∉ t1) ∧
      (mandatoryPresent cfg.knm = true →
        (deleteExistingStep cfg env (initState env)).state.trace = t1) := by
  unfold run_colmap_gv_from_loaded_data runThroughImport
  by_cases hm : mandatoryPresent cfg.knm
  case neg =>
    refine ⟨[], [], [], [], ?_, by simp, by simp, by simp, by simp, ?_,
        by simp, fun h => absurd h hm⟩ <;>
      simp [hm, Outcome.andThen, Outcome.state, initState, handlesInv, subprocClosedAux, openAfter]
  case pos =>
    rw [hm]
    simp only [Bool.not_true, Bool.false_eq_true, if_false]
    have hinv0 : handlesInv (initState env) := by
      constructor <;> rfl
    obtain ⟨t1, htr1, hsub1, _, hc1, ho1', hask1⟩ := deleteExistingStep_state cfg env (initState env)
    cases h1 : deleteExistingStep cfg env (initState env) with
    | err s1 e1 =>
      rw [h1] at htr1
      have hst : (((Outcome.err s1 e1).andThen
          (matchesImporterStep cfg env (flattenRigs cfg.knm))).andThen
          (importStep cfg env)).andThen (deleteDbStep cfg) = .err s1 e1 := rfl
      refine ⟨t1, [], [], [], ?_, hsub1, by simp, by simp, by simp, ?_, hask1,
          fun _ => by simpa [Outcome.state, initState] using htr1⟩
      · rw [hst]
        simpa [Outcome.state, initState] using htr1
      · rw [hst]
        exact handlesInv_extend hinv0 (by simpa [Outcome.state] using htr1) hc1 ho1'
    | ok s1 =>
      rw [h1] at htr1
      have hinv1 : handlesInv s1 :=
        handlesInv_extend hinv0 (by simpa [Outcome.state] using htr1) hc1 ho1'
      have htr1' : s1.trace = t1 := by simpa [Outcome.state, initState] using htr1
      obtain ⟨t2, htr2, hsub2, _, hc2, ho2'⟩ :=
        matchesImporterStep_state cfg env (flattenRigs cfg.knm) s1
      have hstep1tr : (Outcome.ok s1).state.trace = t1 := by
        simpa [Outcome.state] using htr1'
      cases h2 : matchesImporterStep cfg env (flattenRigs cfg.knm) s1 with
      | err s2 e2 =>
        rw [h2] at htr2
        have hst : (((Outcome.ok s1).andThen
            (matchesImporterStep cfg env (flattenRigs cfg.knm))).andThen
            (importStep cfg env)).andThen (deleteDbStep cfg) = .err s2 e2 := by
          simp [Outcome.andThen, h2]
        refine ⟨t1, t2, [], [], ?_, hsub1, hsub2, by simp, by simp, ?_, hask1, fun _ => hstep1tr⟩
        · rw [hst]
          simp only [Outcome.state] at htr2 ⊢
          rw [htr2, htr1']
          simp
        · rw [hst]
          exact handlesInv_extend hinv1 (by simpa [Outcome.state] using htr2) hc2 ho2'
      | ok s2 =>
        rw [h2] at htr2
        have hinv2 : handlesInv s2 :=
          handlesInv_extend hinv1 (by simpa [Outcome.state] using htr2) hc2 ho2'
        have htr2' : s2.trace = t1 ++ t2 := by
          simp only [Outcome.state] at htr2
          rw [htr2, htr1']
        obtain ⟨t3, htr3, hsub3, _, hc3, ho3'⟩ := importStep_state cfg env s2
        cases h3 : importStep cfg env s2 with
        | err s3 e3 => exact absurd h3 (fun h => importStep_err h)
        | ok s3 =>
          rw [h3] at htr3
          have hinv3 : handlesInv s3 :=
            handlesInv_extend hinv2 (by simpa [Outcome.state] using htr3) hc3 ho3'
          have htr3' : s3.trace = t1 ++ (t2 ++ t3) := by
            simp only [Outcome.state] at htr3
            rw [htr3, htr2']
            simp
          obtain ⟨t4, htr4, hsub4, _, hc4, ho4'⟩ := deleteDbStep_state cfg s3
          have hst : (((Outcome.ok s1).andThen
              (matchesImporterStep cfg env (flattenRigs cfg.knm))).andThen
              (importStep cfg env)).andThen (deleteDbStep cfg) = deleteDbStep cfg s3 := by
            simp [Outcome.andThen, h2, h3]
          refine ⟨t1, t2, t3, t4, ?_, hsub1, hsub2, hsub3, hsub4, ?_, hask1, fun _ => hstep1tr⟩
          · rw [hst, htr4, htr3']
            simp
          · rw [hst]
            exact handlesInv_extend hinv3 htr4 hc4 ho4'

/-! ## Consequences of the decomposition -/

/-- Every export event of a run carries the one package built at
lines 74–78 from the (flattened) unverified snapshot. -/
theorem export_mem_run {cfg : Cfg} {env : Env} {d : Kapture}
    (h : Event.exportToColmap d ∈ (run_colmap_gv_from_loaded_data cfg env).state.trace) :
    d = exportPackage (flattenRigs cfg.knm) cfg.kcm := by
  obtain ⟨t1, t2, t3, t4, htr, hs1, hs2, hs3, hs4, -, -, -⟩ := run_decomp cfg env
  rw [htr] at h
  rcases List.mem_append.mp h with h1 | h
  · have := hs1 _ h1
    simp [deleteExistingSup] at this
  rcases List.mem_append.mp h with h2 | h
  · have := hs2 _ h2
    simp only [matchesImporterSup, List.mem_cons, List.mem_singleton] at this
    rcases this with h' | h' | h' | h' | h' <;> simp_all
  rcases List.mem_append.mp h with h3 | h4
  · have := hs3 _ h3
    simp [importSup] at this
  · have := hs4 _ h4
    simp [deleteDbSup] at this

/-- A forced run never asks for confirmation. -/
theorem askConfirmation_not_mem_run {cfg : Cfg} {env : Env} (hf : cfg.force = true)
    (p : String) :
    Event.askConfirmation p ∉ (run_colmap_gv_from_loaded_data cfg env).state.trace := by
  obtain ⟨t1, t2, t3, t4, htr, -, hs2, hs3, hs4, -, hask, -⟩ := run_decomp cfg env
  rw [htr]
  intro h
  rcases List.mem_append.mp h with h1 | h
  · exact hask hf p h1
  rcases List.mem_append.mp h with h2 | h
  · have := hs2 _ h2
    simp [matchesImporterSup] at this
  rcases List.mem_append.mp h with h3 | h4
  · have := hs3 _ h3
    simp [importSup] at this
  · have := hs4 _ h4
    simp [deleteDbSup] at this

/-- With the force flag set, `safe_remove_file` cannot fail, so step
`delete_existing` always succeeds. -/
theorem deleteExistingStep_force_ok {cfg : Cfg} {env : Env} (s : RunState)
    (hf : cfg.force = true) :
    ∃ s', deleteExistingStep cfg env s = .ok s' := by
  unfold deleteExistingStep safe_remove_file
  split
  · exact ⟨s, rfl⟩
  · dsimp only
    split <;> exact ⟨_, rfl⟩

/-- When validation passes, every error a run ends with is traced to
its step: a declined removal in `delete_existing`, a failed subprocess,
or a missing file in `delete_db`. -/
theorem run_err_source {cfg : Cfg} {env : Env} {s : RunState} {e : GvError}
    (hm : mandatoryPresent cfg.knm = true)
    (h : run_colmap_gv_from_loaded_data cfg env = .err s e) :
    (∃ s', deleteExistingStep cfg env (initState env) = .err s' .removalDeclined ∧
      e = .removalDeclined) ∨
    e = .subprocessFailed ∨ e = .fileNotFound := by
  unfold run_colmap_gv_from_loaded_data runThroughImport at h
  rw [hm] at h
  simp only [Bool.not_true, Bool.false_eq_true, if_false] at h
  rcases andThen_eq_err h with h' | ⟨s3, h3, hdel⟩
  · rcases andThen_eq_err h' with h'' | ⟨s2, h2, himp⟩
    · rcases andThen_eq_err h'' with h1 | ⟨s1, hh1, hmi⟩
      · have he := deleteExistingStep_err h1
        subst he
        exact Or.inl ⟨s, h1, rfl⟩
      · exact Or.inr (Or.inl (matchesImporterStep_err hmi))
    · exact (importStep_err himp).elim
  · exact Or.inr (Or.inr (deleteDbStep_err hdel))

/-- When validation passes, a run never raises the configuration
error. -/
theorem run_no_valueError {cfg : Cfg} {env : Env}
    (hm : mandatoryPresent cfg.knm = true) (s : RunState) :
    run_colmap_gv_from_loaded_data cfg env ≠ .err s .valueError := by
  intro h
  rcases run_err_source hm h with ⟨s', -, he⟩ | he | he <;> exact absurd he (by simp)

/-- When validation fails, the run is exactly the configuration error
raised on the unmodified initial state. -/
theorem run_not_mandatory {cfg : Cfg} {env : Env}
    (hm : mandatoryPresent cfg.knm = false) :
    run_colmap_gv_from_loaded_data cfg env = .err (initState env) .valueError := by
  unfold run_colmap_gv_from_loaded_data runThroughImport
  rw [hm]
  rfl

/-- Events of step `delete_existing` (run on the initial state) belong
to the run's trace whenever validation passes. -/
theorem step1_mem_run {cfg : Cfg} {env : Env} {e : Event}
    (hm : mandatoryPresent cfg.knm = true)
    (h : e ∈ (deleteExistingStep cfg env (initState env)).state.trace) :
    e ∈ (run_colmap_gv_from_loaded_data cfg env).state.trace := by
  obtain ⟨t1, t2, t3, t4, htr, -, -, -, -, -, -, hstep1⟩ := run_decomp cfg env
  rw [htr]
  rw [hstep1 hm] at h
  exact List.mem_append.mpr (Or.inl h)

/-- An error in step `delete_existing` aborts the whole run with that
error, when validation passes. -/
theorem run_of_step1_err {cfg : Cfg} {env : Env} {s' : RunState} {e : GvError}
    (hm : mandatoryPresent cfg.knm = true)
    (h : deleteExistingStep cfg env (initState env) = .err s' e) :
    run_colmap_gv_from_loaded_data cfg env = .err s' e := by
  unfold run_colmap_gv_from_loaded_data runThroughImport
  rw [hm]
  simp only [Bool.not_true, Bool.false_eq_true, if_false]
  rw [h]
  rfl

theorem mandatoryPresent_eq_false_iff (k : Kapture) :
    mandatoryPresent k = false ↔
      (k.records_camera = none ∨ k.records_camera = some [] ∨
       k.sensors = none ∨ k.sensors = some [] ∨
       k.keypoints = none ∨ k.keypoints = some [] ∨
       k.«matches» = none ∨ k.«matches» = some []) := by
  rw [Bool.eq_false_iff]
  simp only [mandatoryPresent, Ne, Bool.and_eq_true, not_and_or, Bool.not_eq_true,
    truthy_eq_false_iff]
  tauto

theorem mandatory_matches_some {k : Kapture} (hm : mandatoryPresent k = true) :
    k.«matches» = some (k.«matches».getD []) := by
  have : truthy k.«matches» = true := by
    simp only [mandatoryPresent, Bool.and_eq_true] at hm
    exact hm.2
  cases h : k.«matches» with
  | none => rw [h] at this; simp [truthy] at this
  | some l => rfl

theorem computeMatchesToVerify_flatten (knm kcm : Kapture) :
    computeMatchesToVerify (flattenRigs knm) kcm = computeMatchesToVerify knm kcm := by
  unfold computeMatchesToVerify
  rw [flattenRigs_matches]

/-! ## Claim theorems -/

/-- C1: for every pair of loaded snapshots passing validation, every
match set handed to the export (the matches selected for verification)
is exactly the set difference: the image pairs of the unverified
snapshot's matches whose pair keys are absent from the verified
snapshot's match set. -/
theorem c1_match_difference (cfg : Cfg) (env : Env)
    (hval : mandatoryPresent cfg.knm = true) (d : Kapture)
    (hd : Event.exportToColmap d ∈ (run_colmap_gv_from_loaded_data cfg env).state.trace)
    (p : ImagePair) :
    p ∈ d.«matches».getD [] ↔
      p ∈ cfg.knm.«matches».getD [] ∧ p ∉ colmapMatchesOf cfg.kcm := by
  have hde := export_mem_run hd
  subst hde
  have : (exportPackage (flattenRigs cfg.knm) cfg.kcm).«matches» =
      some (computeMatchesToVerify cfg.knm cfg.kcm) := by
    rw [show (exportPackage (flattenRigs cfg.knm) cfg.kcm).«matches» =
      some (computeMatchesToVerify (flattenRigs cfg.knm) cfg.kcm) from rfl,
      computeMatchesToVerify_flatten]
  rw [this, Option.getD_some, computeMatchesToVerify_mem]

/-- C2: the run raises the configuration error (`ValueError`) iff one
of the unverified snapshot's image records, sensors, keypoints or
matches is missing (`None`) or empty, and in that case it aborts on
the untouched initial state: empty trace, no file created, modified or
deleted. -/
theorem c2_validation (cfg : Cfg) (env : Env) :
    ((∃ s, run_colmap_gv_from_loaded_data cfg env = .err s .valueError) ↔
      (cfg.knm.records_camera = none ∨ cfg.knm.records_camera = some [] ∨
       cfg.knm.sensors = none ∨ cfg.knm.sensors = some [] ∨
       cfg.knm.keypoints = none ∨ cfg.knm.keypoints = some [] ∨
       cfg.knm.«matches» = none ∨ cfg.knm.«matches» = some [])) ∧
    (∀ s, run_colmap_gv_from_loaded_data cfg env = .err s .valueError →
      s = initState env ∧ s.trace = [] ∧ s.fs.dbExists = env.dbExists0 ∧
      s.fs.dbWrites = 0) := by
  constructor
  · constructor
    · rintro ⟨s, hs⟩
      rw [← mandatoryPresent_eq_false_iff]
      cases hm : mandatoryPresent cfg.knm with
      | false => rfl
      | true => exact absurd hs (run_no_valueError hm s)
    · intro hdisj
      have hm : mandatoryPresent cfg.knm = false :=
        (mandatoryPresent_eq_false_iff cfg.knm).mpr hdisj
      exact ⟨initState env, run_not_mandatory hm⟩
  · intro s hs
    cases hm : mandatoryPresent cfg.knm with
    | true => exact absurd hs (run_no_valueError hm s)
    | false =>
      have := @run_not_mandatory cfg env hm
      rw [this] at hs
      injection hs with h1 h2
      subst h1
      exact ⟨rfl, rfl, rfl, rfl⟩

/-- C3: every package handed to the external-database export consists
of exactly the unverified snapshot's sensors, (flattened) trajectories,
image records and keypoints, with exactly the computed match difference
as its match set and nothing else (no rigs). -/
theorem c3_export_package (cfg : Cfg) (env : Env) (d : Kapture)
    (hd : Event.exportToColmap d ∈ (run_colmap_gv_from_loaded_data cfg env).state.trace) :
    d = exportPackage (flattenRigs cfg.knm) cfg.kcm ∧
    d.sensors = cfg.knm.sensors ∧
    d.trajectories = (flattenRigs cfg.knm).trajectories ∧
    d.records_camera = cfg.knm.records_camera ∧
    d.keypoints = cfg.knm.keypoints ∧
    d.«matches» = some (computeMatchesToVerify cfg.knm cfg.kcm) ∧
    d.rigs = none := by
  have hde := export_mem_run hd
  subst hde
  refine ⟨rfl, flattenRigs_sensors _, rfl, flattenRigs_records _, flattenRigs_keypoints _,
    ?_, rfl⟩
  rw [show (exportPackage (flattenRigs cfg.knm) cfg.kcm).«matches» =
    some (computeMatchesToVerify (flattenRigs cfg.knm) cfg.kcm) from rfl,
    computeMatchesToVerify_flatten]

/-- C4: in every successful run, the step markers of the trace are
exactly the step names not in the skip list, in the fixed order
delete_existing, matches_importer, import, delete_db: a step is
executed iff its name is not skipped, and skipping one step never
suppresses another. -/
theorem c4_step_order (cfg : Cfg) (env : Env) (s : RunState)
    (h : run_colmap_gv_from_loaded_data cfg env = .ok s) :
    s.trace.filter isStepMarker = expectedMarkers cfg.skip_list := by
  unfold run_colmap_gv_from_loaded_data runThroughImport at h
  cases hm : mandatoryPresent cfg.knm with
  | false =>
    rw [hm] at h
    exact absurd h (by simp [Outcome.andThen])
  | true =>
    rw [hm] at h
    simp only [Bool.not_true, Bool.false_eq_true, if_false] at h
    obtain ⟨s3, h123, h4⟩ := andThen_eq_ok h
    obtain ⟨s2, h12, h3⟩ := andThen_eq_ok h123
    obtain ⟨s1, h1, h2⟩ := andThen_eq_ok h12
    obtain ⟨t1, htr1, -, hf1, -, -, -⟩ := deleteExistingStep_state cfg env (initState env)
    obtain ⟨t2, htr2, -, hf2, -, -⟩ := matchesImporterStep_state cfg env (flattenRigs cfg.knm) s1
    obtain ⟨t3, htr3, -, hf3, -, -⟩ := importStep_state cfg env s2
    obtain ⟨t4, htr4, -, hf4, -, -⟩ := deleteDbStep_state cfg s3
    rw [h1] at htr1
    rw [h2] at htr2
    rw [h3] at htr3
    rw [h4] at htr4
    simp only [Outcome.state] at htr1 htr2 htr3 htr4
    have hs : s.trace = ((t1 ++ t2) ++ t3) ++ t4 := by
      rw [htr4, htr3, htr2, htr1]
      simp [initState]
    rw [hs]
    simp only [List.filter_append, hf1, hf2, hf3, hf4, expectedMarkers, stepNames]
    by_cases k1 : "delete_existing" ∈ cfg.skip_list <;>
      by_cases k2 : "matches_importer" ∈ cfg.skip_list <;>
        by_cases k3 : "import" ∈ cfg.skip_list <;>
          by_cases k4 : "delete_db" ∈ cfg.skip_list <;>
            simp [k1, k2, k3, k4]

/-- C5: when the unverified snapshot has rigs and trajectories (and no
rig lists another rig as a member camera), the rigs are flattened into
the trajectories before any export: the flattened trajectories contain
no rig reference, and every exported package's trajectories contain no
rig reference.  Only the in-memory snapshot is recomputed; the model's
run emits no event that writes a dataset directory. -/
theorem c5_rig_flattening (cfg : Cfg) (env : Env) (rigs : List Rig) (traj : List TrajEntry)
    (hr : cfg.knm.rigs = some rigs) (ht : cfg.knm.trajectories = some traj)
    (hdisj : ∀ r ∈ rigs, ∀ c ∈ r.2, isRigId rigs c.1 = false) :
    (flattenRigs cfg.knm).trajectories = some (rigs_remove_inplace traj rigs) ∧
    (∀ e ∈ rigs_remove_inplace traj rigs, isRigId rigs e.2.1 = false) ∧
    (∀ d, Event.exportToColmap d ∈ (run_colmap_gv_from_loaded_data cfg env).state.trace →
      ∀ e ∈ d.trajectories.getD [], isRigId rigs e.2.1 = false) := by
  refine ⟨flattenRigs_trajectories hr ht, rigs_remove_inplace_no_rig hdisj traj, ?_⟩
  intro d hd e he
  have hde := export_mem_run hd
  subst hde
  rw [show (exportPackage (flattenRigs cfg.knm) cfg.kcm).trajectories =
    (flattenRigs cfg.knm).trajectories from rfl, flattenRigs_trajectories hr ht,
    Option.getD_some] at he
  exact rigs_remove_inplace_no_rig hdisj traj e he

/-- C6: in every run, at every point of the trace where the external
binary's subprocess is launched, the number of database handles opened
so far equals the number closed: the database is never held open by
the orchestrator while the subprocess runs (and, the trace being
sequential, everything after the launch event happens after the
blocking call returns). -/
theorem c6_db_closed_around_subprocess (cfg : Cfg) (env : Env)
    (t1 t2 : List Event) (b p : String)
    (h : (run_colmap_gv_from_loaded_data cfg env).state.trace =
      t1 ++ Event.runSubprocess b p :: t2) :
    openAfter 0 t1 = 0 := by
  obtain ⟨u1, u2, u3, u4, -, -, -, -, -, hinv, -, -⟩ := run_decomp cfg env
  have hc := hinv.1
  rw [h] at hc
  exact subprocClosedAux_decomp t1 0 b p t2 hc

/-- Step `delete_existing`, not skipped, on an existing file without
force: a confirmation request is emitted. -/
theorem deleteExistingStep_asks {cfg : Cfg} {env : Env} {s : RunState}
    (hskip : "delete_existing" ∉ cfg.skip_list)
    (hdb : s.fs.dbExists = true) (hforce : cfg.force = false) :
    Event.askConfirmation (colmapDbPath cfg) ∈ (deleteExistingStep cfg env s).state.trace := by
  unfold deleteExistingStep safe_remove_file
  rw [if_neg hskip]
  dsimp only
  rw [if_pos (show (emit s (Event.stepRun "delete_existing")).fs.dbExists = true from hdb),
    if_neg (by rw [hforce]; simp)]
  split <;> simp [emit, Outcome.state]

/-- Step `delete_existing`, not skipped, on an existing file without
force and with the user declining: the step fails with the declined
error. -/
theorem deleteExistingStep_declined {cfg : Cfg} {env : Env} {s : RunState}
    (hskip : "delete_existing" ∉ cfg.skip_list)
    (hdb : s.fs.dbExists = true) (hforce : cfg.force = false)
    (huc : env.userConfirms = false) :
    ∃ s', deleteExistingStep cfg env s = .err s' .removalDeclined := by
  unfold deleteExistingStep safe_remove_file
  rw [if_neg hskip]
  dsimp only
  rw [if_pos (show (emit s (Event.stepRun "delete_existing")).fs.dbExists = true from hdb),
    if_neg (by rw [hforce]; simp), if_neg (by rw [huc]; simp)]
  exact ⟨_, rfl⟩

/-- Step `delete_existing`, not skipped, on an existing file with
force: the file-removal event is emitted. -/
theorem deleteExistingStep_removes {cfg : Cfg} {env : Env} {s : RunState}
    (hskip : "delete_existing" ∉ cfg.skip_list)
    (hdb : s.fs.dbExists = true) (hforce : cfg.force = true) :
    Event.removeFile (colmapDbPath cfg) ∈ (deleteExistingStep cfg env s).state.trace := by
  unfold deleteExistingStep safe_remove_file
  rw [if_neg hskip]
  dsimp only
  rw [if_pos (show (emit s (Event.stepRun "delete_existing")).fs.dbExists = true from hdb),
    if_pos hforce]
  simp [emit, Outcome.state]

/-- C7: with a pre-existing database file, step `delete_existing` not
skipped and validation passing: without force the run asks for
confirmation (and aborts with an error if the user declines) rather
than silently overwriting; with force the file is removed silently (no
confirmation request anywhere in the run) and the run is never aborted
by a declined removal. -/
theorem c7_existing_db (cfg : Cfg) (env : Env)
    (hm : mandatoryPresent cfg.knm = true)
    (hex : env.dbExists0 = true)
    (hskip : "delete_existing" ∉ cfg.skip_list) :
    (cfg.force = false →
      Event.askConfirmation (colmapDbPath cfg) ∈
        (run_colmap_gv_from_loaded_data cfg env).state.trace ∧
      (env.userConfirms = false →
        ∃ s, run_colmap_gv_from_loaded_data cfg env = .err s .removalDeclined)) ∧
    (cfg.force = true →
      Event.removeFile (colmapDbPath cfg) ∈
        (run_colmap_gv_from_loaded_data cfg env).state.trace ∧
      (∀ p, Event.askConfirmation p ∉ (run_colmap_gv_from_loaded_data cfg env).state.trace) ∧
      (∀ s e, run_colmap_gv_from_loaded_data cfg env = .err s e → e ≠ .removalDeclined)) := by
  have hdb : (initState env).fs.dbExists = true := hex
  constructor
  · intro hforce
    constructor
    · exact step1_mem_run hm (deleteExistingStep_asks hskip hdb hforce)
    · intro huc
      obtain ⟨s', hs'⟩ := deleteExistingStep_declined hskip hdb hforce huc
      exact ⟨s', run_of_step1_err hm hs'⟩
  · intro hforce
    refine ⟨step1_mem_run hm (deleteExistingStep_removes hskip hdb hforce),
      askConfirmation_not_mem_run hforce, ?_⟩
    intro s e hrun he
    subst he
    rcases run_err_source hm hrun with ⟨s', hs', -⟩ | he | he
    · obtain ⟨s'', hs''⟩ := deleteExistingStep_force_ok (initState env) hforce
      rw [hs'] at hs''
      exact absurd hs'' (by simp)
    · exact absurd he (by simp)
    · exact absurd he (by simp)

/-- C8: when `delete_db` is in the skip set, the run is exactly the
run truncated after the `import` step: no step after `import` touches
the database file, so it is left on disk with its import-time
contents. -/
theorem c8_skip_delete_db (cfg : Cfg) (env : Env)
    (h : "delete_db" ∈ cfg.skip_list) :
    run_colmap_gv_from_loaded_data cfg env = runThroughImport cfg env := by
  unfold run_colmap_gv_from_loaded_data
  cases ho : runThroughImport cfg env with
  | ok s =>
    simp only [Outcome.andThen]
    unfold deleteDbStep
    rw [if_pos h]
  | err s e => rfl

/-- C9: when the verified snapshot has no match collection at all, it
is treated as the empty match set: the computed difference is the
entire unverified match set, every exported package carries exactly
the unverified matches, and the run never fails with the configuration
error on account of the missing collection. -/
theorem c9_verified_matches_none (cfg : Cfg) (env : Env)
    (hnone : cfg.kcm.«matches» = none)
    (hm : mandatoryPresent cfg.knm = true) :
    computeMatchesToVerify cfg.knm cfg.kcm = cfg.knm.«matches».getD [] ∧
    (∀ d, Event.exportToColmap d ∈ (run_colmap_gv_from_loaded_data cfg env).state.trace →
      d.«matches» = cfg.knm.«matches») ∧
    (∀ s, run_colmap_gv_from_loaded_data cfg env ≠ .err s .valueError) := by
  have hdiff : computeMatchesToVerify cfg.knm cfg.kcm = cfg.knm.«matches».getD [] := by
    unfold computeMatchesToVerify colmapMatchesOf
    rw [hnone]
    simp
  refine ⟨hdiff, ?_, run_no_valueError hm⟩
  intro d hd
  have hde := export_mem_run hd
  subst hde
  rw [show (exportPackage (flattenRigs cfg.knm) cfg.kcm).«matches» =
    some (computeMatchesToVerify (flattenRigs cfg.knm) cfg.kcm) from rfl,
    computeMatchesToVerify_flatten, hdiff]
  exact (mandatory_matches_some hm).symm

/-- C10: step `delete_db` removes the database file without checking
that it exists: when `matches_importer` and `import` are both skipped,
`delete_db` is not, no file pre-exists and validation passes, the run
ends with the file-not-found error. -/
theorem c10_delete_missing_db (cfg : Cfg) (env : Env)
    (hm : mandatoryPresent cfg.knm = true)
    (h1 : "matches_importer" ∈ cfg.skip_list)
    (h2 : "import" ∈ cfg.skip_list)
    (h3 : "delete_db" ∉ cfg.skip_list)
    (hdb : env.dbExists0 = false) :
    ∃ s, run_colmap_gv_from_loaded_data cfg env = .err s .fileNotFound := by
  have hstep1 : ∃ s1, deleteExistingStep cfg env (initState env) = .ok s1 ∧
      s1.fs.dbExists = false := by
    unfold deleteExistingStep safe_remove_file
    by_cases hskip : "delete_existing" ∈ cfg.skip_list
    · rw [if_pos hskip]
      exact ⟨initState env, rfl, by simp [initState, hdb]⟩
    · rw [if_neg hskip]
      dsimp only
      rw [if_neg (show ¬(emit (initState env) (Event.stepRun "delete_existing")).fs.dbExists
        = true by simp [emit, initState, hdb])]
      exact ⟨_, rfl, by simp [emit, initState, hdb]⟩
  obtain ⟨s1, hs1, hdb1⟩ := hstep1
  have hmi : matchesImporterStep cfg env (flattenRigs cfg.knm) s1 = .ok s1 := by
    unfold matchesImporterStep
    rw [if_pos h1]
  have him : importStep cfg env s1 = .ok s1 := by
    unfold importStep
    rw [if_pos h2]
  unfold run_colmap_gv_from_loaded_data runThroughImport
  rw [hm]
  simp only [Bool.not_true, Bool.false_eq_true, if_false]
  rw [hs1]
  simp only [Outcome.andThen, hmi, him]
  refine ⟨emit s1 (.stepRun "delete_db"), ?_⟩
  unfold deleteDbStep
  rw [if_neg h3]
  dsimp only
  rw [if_neg (show ¬(emit s1 (Event.stepRun "delete_db")).fs.dbExists = true by
    simp [emit, hdb1])]

/-! ## Concrete instances

A small dataset: three unverified image pairs, one of them already
verified, one rig with one camera. -/

/-- An unverified snapshot with three image pairs and a rig. -/
def knmA : Kapture :=
  { sensors := some ["cam0"]
    trajectories := some [(0, "rig0", (1 : Int))]
    rigs := some [("rig0", [("cam0", (2 : Int))])]
    records_camera := some [(0, "cam0", "img0"), (0, "cam0", "img1"), (0, "cam0", "img2")]
    keypoints := some ["img0", "img1", "img2"]
    «matches» := some [("img0", "img1"), ("img0", "img2"), ("img1", "img2")] }

/-- A verified snapshot holding one of the three pairs. -/
def kcmA : Kapture := { «matches» := some [("img0", "img1")] }

/-- A configuration running all four steps with force set. -/
def cfgA : Cfg :=
  { knm := knmA
    kcm := kcmA
    knm_dirpath := "in"
    kcm_dirpath := "out"
    colmap_binary := "colmap"
    skip_list := []
    force := true }

/-- A benign environment: no pre-existing database file, confirming
user, succeeding subprocess. -/
def envA : Env :=
  { dbExists0 := false
    userConfirms := true
    subprocessOk := true
    importedRecords := []
    importedMatches := [] }

/-- The same environment with a pre-existing database file. -/
def envB : Env := { envA with dbExists0 := true }

/-- An invalid unverified snapshot: keypoints are missing. -/
def cfgBad : Cfg := { cfgA with knm := { knmA with keypoints := none } }

/-- The configuration with the `delete_db` step skipped. -/
def cfgC : Cfg := { cfgA with skip_list := ["delete_db"] }

/-- The configuration with a verified snapshot that has no match
collection at all. -/
def cfgD : Cfg := { cfgA with kcm := {} }

/-- The configuration with `matches_importer` and `import` skipped. -/
def cfgE : Cfg := { cfgA with skip_list := ["matches_importer", "import"] }

/-- Spec scenario: three unverified pairs, one verified, the exported
difference holds exactly the two remaining pairs. -/
theorem matchDifference_scenario :
    computeMatchesToVerify cfgA.knm cfgA.kcm = [("img0", "img2"), ("img1", "img2")] := by
  decide

/-! ## Witnesses -/

/-- Witness for C1 at the concrete dataset. -/
theorem c1_match_difference_witness :
    ("img0", "img2") ∈ (exportPackage (flattenRigs cfgA.knm) cfgA.kcm).«matches».getD [] ↔
      ("img0", "img2") ∈ cfgA.knm.«matches».getD [] ∧
        ("img0", "img2") ∉ colmapMatchesOf cfgA.kcm :=
  c1_match_difference cfgA envA (by decide)
    (exportPackage (flattenRigs cfgA.knm) cfgA.kcm) (by decide) ("img0", "img2")

/-- Witness for C2 at an invalid snapshot. -/
theorem c2_validation_witness :
    ∃ s, run_colmap_gv_from_loaded_data cfgBad envA = .err s .valueError :=
  (c2_validation cfgBad envA).1.mpr (by decide)

/-- Witness for C3 at the concrete dataset. -/
theorem c3_export_package_witness :
    (exportPackage (flattenRigs cfgA.knm) cfgA.kcm).«matches» =
      some (computeMatchesToVerify cfgA.knm cfgA.kcm) :=
  (c3_export_package cfgA envA (exportPackage (flattenRigs cfgA.knm) cfgA.kcm)
    (by decide)).2.2.2.2.2.1

/-- Witness for C4 at the concrete dataset. -/
theorem c4_step_order_witness :
    ((run_colmap_gv_from_loaded_data cfgA envA).state.trace.filter isStepMarker) =
      expectedMarkers cfgA.skip_list :=
  c4_step_order cfgA envA (run_colmap_gv_from_loaded_data cfgA envA).state (by decide)

/-- Witness for C5 at the concrete dataset. -/
theorem c5_rig_flattening_witness :
    (flattenRigs cfgA.knm).trajectories =
      some (rigs_remove_inplace [(0, "rig0", (1 : Int))] [("rig0", [("cam0", (2 : Int))])]) :=
  (c5_rig_flattening cfgA envA [("rig0", [("cam0", (2 : Int))])] [(0, "rig0", (1 : Int))]
    (by decide) (by decide) (by decide)).1

/-- Witness for C6 at the concrete dataset: the prefix of the trace
before the subprocess launch has all handles closed. -/
theorem c6_db_closed_around_subprocess_witness :
    openAfter 0 [Event.stepRun "delete_existing", Event.stepRun "matches_importer",
      Event.connectDb "out/colmap.db",
      Event.exportToColmap (exportPackage (flattenRigs cfgA.knm) cfgA.kcm),
      Event.closeDb "out/colmap.db"] = 0 :=
  c6_db_closed_around_subprocess cfgA envA
    [Event.stepRun "delete_existing", Event.stepRun "matches_importer",
      Event.connectDb "out/colmap.db",
      Event.exportToColmap (exportPackage (flattenRigs cfgA.knm) cfgA.kcm),
      Event.closeDb "out/colmap.db"]
    [Event.stepRun "import", Event.connectDb "out/colmap.db",
      Event.readImagesFromDb "out/colmap.db", Event.readMatchesFromDb "out/colmap.db",
      Event.closeDb "out/colmap.db", Event.stepRun "delete_db",
      Event.removeFile "out/colmap.db"]
    "colmap" "out/colmap.db" (by decide)

/-- Witness for C7 at the concrete dataset with a pre-existing file
and force set. -/
theorem c7_existing_db_witness :
    Event.removeFile (colmapDbPath cfgA) ∈
      (run_colmap_gv_from_loaded_data cfgA envB).state.trace :=
  ((c7_existing_db cfgA envB (by decide) rfl (by decide)).2 rfl).1

/-- Witness for C8 with `delete_db` skipped. -/
theorem c8_skip_delete_db_witness :
    run_colmap_gv_from_loaded_data cfgC envA = runThroughImport cfgC envA :=
  c8_skip_delete_db cfgC envA (by decide)

/-- Witness for C9 with a verified snapshot lacking matches. -/
theorem c9_verified_matches_none_witness :
    computeMatchesToVerify cfgD.knm cfgD.kcm = cfgD.knm.«matches».getD [] :=
  (c9_verified_matches_none cfgD envA rfl (by decide)).1

/-- Witness for C10 with both middle steps skipped and no file. -/
theorem c10_delete_missing_db_witness :
    ∃ s, run_colmap_gv_from_loaded_data cfgE envA = .err s .fileNotFound :=
  c10_delete_missing_db cfgE envA (by decide) (by decide) (by decide) (by decide) rfl

end KaptureGv
